import Mathlib

/-!
Verification of the tick-aggregation and trading decision engine of the
CoinDCX scalper bot (`src/main.rs`).

Modelling conventions:
* `f64` values (prices, quantities, indicator values, P&L) are modelled as
  exact rationals `ℚ`; every comparison and arithmetic operation the decision
  logic performs is order/field arithmetic that is faithfully mirrored on `ℚ`.
* `i64` millisecond timestamps are `ℤ`; Rust integer division truncates
  toward zero, which is `Int.tdiv`.
* The SQLite store is a pair of row lists (`candles`, `trades`); SQL
  statements become the corresponding list transformations
  (`INSERT` = append, `INSERT OR REPLACE` keyed by `time` = replace-by-key,
  `DELETE ... WHERE` = filter, `DROP TABLE` + `CREATE TABLE` = empty list).
  The wall-clock timestamp string column of a trade row is elided (it is
  environment input never read back by the program).
* The indicator values (`cur_rsi`, `cur_bb_low`, `cur_bb_high`) are computed
  in the source by the external `ta` crate from the stored close history;
  the decision logic consumes them as plain numbers, so each cycle takes
  them as inputs.
* Network effects (`eprintln!`, order HTTP posts) have no effect on any
  tracked state; in simulation mode `execute_trade` additionally appends a
  ledger row, exactly as the source does.
-/

/-- Configuration constants from the top of `main.rs`. -/
def SIMULATION_MODE : Bool := true

def TRADE_CAPITAL : ℚ := 10000

def TRAILING_STOP_PCT : ℚ := 5 / 1000

def RSI_BUY : ℚ := 30

def RSI_SELL : ℚ := 70

/-- In-memory OHLC candle (struct `Candle`); `open_` is the `open` field. -/
structure Candle where
  open_ : ℚ
  high : ℚ
  low : ℚ
  close : ℚ
  time : ℤ
deriving Repr, DecidableEq

/-- `(now_ts / 60000) * 60000` with Rust `i64` truncating division. -/
def bucketOf (now_ts : ℤ) : ℤ :=
  Int.tdiv now_ts 60000 * 60000

/-- One tick of the candle aggregator, from the body of `bot_logic`
(lines 343-352): on a bucket change start a fresh candle at `price`,
otherwise set `close := price` and widen `high`/`low`. -/
def observe (current : Candle) (price : ℚ) (now_ts : ℤ) : Candle :=
  let candle_start_ts := bucketOf now_ts
  if current.time ≠ candle_start_ts then
    { open_ := price, high := price, low := price, close := price, time := candle_start_ts }
  else
    let c1 := { current with close := price }
    let c2 := if price > c1.high then { c1 with high := price } else c1
    if price < c2.low then { c2 with low := price } else c2

/-- Folding the aggregator over a list of `(price, now_ts)` ticks. -/
def observeFold (c : Candle) (ticks : List (ℚ × ℤ)) : Candle :=
  ticks.foldl (fun acc pt => observe acc pt.1 pt.2) c

/-- A row of the `trades` table (timestamp string column elided). -/
structure TradeRow where
  action : String
  price : ℚ
  quantity : ℚ
  profit : ℚ
deriving Repr, DecidableEq

/-- A row of the `candles` table. -/
structure CandleRow where
  time : ℤ
  open_ : ℚ
  high : ℚ
  low : ℚ
  close : ℚ
  rsi : ℚ
  bb_lower : ℚ
  bb_upper : ℚ
deriving Repr, DecidableEq

/-- The SQLite database: the two tables of `DbManager`. -/
structure Db where
  candles : List CandleRow
  trades : List TradeRow
deriving Repr, DecidableEq

/-- `DbManager::init`: drops both tables if they exist and recreates them
empty (lines 110-140 of `main.rs`). -/
def DbManager.init (_db : Db) : Db :=
  { candles := [], trades := [] }

/-- `DbManager::save_candle`: `INSERT OR REPLACE` keyed by `time`. -/
def DbManager.save_candle (db : Db) (c : Candle) (rsi bb_lower bb_upper : ℚ) : Db :=
  let row : CandleRow :=
    { time := c.time, open_ := c.open_, high := c.high, low := c.low, close := c.close,
      rsi := rsi, bb_lower := bb_lower, bb_upper := bb_upper }
  { db with candles := row :: db.candles.filter (fun r => !decide (r.time = c.time)) }

/-- `DbManager::log_trade`: `INSERT INTO trades` (append one row). -/
def DbManager.log_trade (db : Db) (action : String) (price qty profit : ℚ) : Db :=
  { db with trades := db.trades ++ [{ action := action, price := price, quantity := qty, profit := profit }] }

/-- `DbManager::prune_old_data`: `DELETE FROM candles WHERE time < now - 60*60*1000`;
the `trades` table is untouched. -/
def DbManager.prune_old_data (db : Db) (now_ms : ℤ) : Db :=
  let threshold := now_ms - 60 * 60 * 1000
  { db with candles := db.candles.filter (fun c => !decide (c.time < threshold)) }

/-- The position state machine's state (enum `BotState`). -/
inductive BotState where
  | Idle : BotState
  | InPosition (entry_price highest_price quantity : ℚ) : BotState
deriving Repr, DecidableEq

/-- The shared snapshot (struct `DashboardData`). -/
structure DashboardData where
  price : ℚ
  rsi : ℚ
  bb_lower : ℚ
  bb_upper : ℚ
  status : String
  entry_price : ℚ
  unrealized_pl : ℚ
  realized_pl : ℚ
  wallet_usdt : ℚ
  wallet_btc : ℚ
  logs : List String
deriving Repr, DecidableEq

/-- `add_log`: insert the message at the front of the log ring and pop the
last entry when the ring exceeds 30 lines (the `HH:MM:SS | ` wall-clock
prefix is elided). -/
def add_log (data : DashboardData) (msg : String) : DashboardData :=
  let logs := msg :: data.logs
  { data with logs := if logs.length > 30 then logs.dropLast else logs }

/-- `execute_trade`: in simulation mode it appends one ledger row with
profit `0.0`; in real mode it posts an HTTP order and writes nothing to
the database (lines 271-300). -/
def execute_trade (sim : Bool) (db : Db) (side : String) (price qty : ℚ) : Db :=
  if sim then DbManager.log_trade db side price qty 0 else db

/-- The snapshot write block of lines 372-384: publish price and
indicators, and the unrealized P&L computed from the state at the start of
the cycle, before the decision runs. -/
def snapshotUpdate (data : DashboardData) (bs : BotState)
    (price cur_rsi cur_bb_low cur_bb_high : ℚ) : DashboardData :=
  let d := { data with price := price, rsi := cur_rsi,
                       bb_lower := cur_bb_low, bb_upper := cur_bb_high }
  match bs with
  | BotState.InPosition entry_price _ _ =>
      { d with unrealized_pl := (price - entry_price) / entry_price * 100 }
  | BotState.Idle => { d with unrealized_pl := 0 }

/-- The decision step of lines 386-435: the `match bot_state` block, with
its log, snapshot-status and database side effects. -/
def bot_decide (sim : Bool) (bs : BotState) (data : DashboardData) (db : Db)
    (price cur_rsi cur_bb_low : ℚ) : BotState × DashboardData × Db :=
  match bs with
  | BotState.Idle =>
      if (cur_rsi < RSI_BUY ∧ price < cur_bb_low) ∨ cur_rsi < 20 then
        let qty := TRADE_CAPITAL / price
        let data := add_log data ("BUY SIGNAL")
        let data := { data with status := "IN POSITION", entry_price := price }
        let db := execute_trade sim db ("buy") price qty
        (BotState.InPosition price price qty, data, db)
      else
        (BotState.Idle, { data with status := "IDLE (Scanning)" }, db)
  | BotState.InPosition entry_price highest_price quantity =>
      let highest_price := if price > highest_price then price else highest_price
      let stop_price := highest_price * (1 - TRAILING_STOP_PCT)
      let profit_amt := (price - entry_price) * quantity
      if price < stop_price then
        let data := add_log data ("STOP LOSS")
        let db := DbManager.log_trade db ("sell") price quantity profit_amt
        let data := { data with status := "IDLE", entry_price := 0,
                                realized_pl := data.realized_pl + profit_amt }
        let db := execute_trade sim db ("sell") price quantity
        (BotState.Idle, data, db)
      else if cur_rsi > RSI_SELL then
        let data := add_log data ("PROFIT TAKE")
        let db := DbManager.log_trade db ("sell") price quantity profit_amt
        let data := { data with status := "IDLE", entry_price := 0,
                                realized_pl := data.realized_pl + profit_amt }
        let db := execute_trade sim db ("sell") price quantity
        (BotState.Idle, data, db)
      else
        (BotState.InPosition entry_price highest_price quantity,
         { data with status := "HOLDING" }, db)

/-- Outcome of `get_latest_price`: a price, an empty trade-history
response (`Ok(None)`), or a transport error (`Err`). -/
inductive FetchResult where
  | ok (price : ℚ) : FetchResult
  | noData : FetchResult
  | err (msg : String) : FetchResult
deriving Repr, DecidableEq

/-- All state mutated by one iteration of the decision loop. -/
structure CycleState where
  bot_state : BotState
  data : DashboardData
  db : Db
  current_candle : Candle
deriving Repr, DecidableEq

/-- The successful-fetch body of the loop (lines 342-435): aggregate the
tick, persist the candle (twice: once with zero indicators, once with the
recomputed ones), publish the snapshot, then run the decision step. -/
def cycleSuccess (st : CycleState) (price : ℚ) (now_ts : ℤ)
    (cur_rsi cur_bb_low cur_bb_high : ℚ) : CycleState :=
  let cc := observe st.current_candle price now_ts
  let db := DbManager.save_candle st.db cc 0 0 0
  let db := DbManager.save_candle db cc cur_rsi cur_bb_low cur_bb_high
  let data := snapshotUpdate st.data st.bot_state price cur_rsi cur_bb_low cur_bb_high
  let r := bot_decide SIMULATION_MODE st.bot_state data db price cur_rsi cur_bb_low
  { bot_state := r.1, data := r.2.1, db := r.2.2, current_candle := cc }

/-- One iteration of the loop's fetch dispatch (lines 341-439): on
`Ok(Some(price))` run the cycle body; `Ok(None)` and `Err(e)` only
`eprintln!` to standard error and change nothing. -/
def cycleStep (st : CycleState) (r : FetchResult) (now_ts : ℤ)
    (cur_rsi cur_bb_low cur_bb_high : ℚ) : CycleState :=
  match r with
  | FetchResult.ok price => cycleSuccess st price now_ts cur_rsi cur_bb_low cur_bb_high
  | FetchResult.noData => st
  | FetchResult.err _ => st

/-- The environment inputs consumed by one loop iteration. -/
structure CycleInput where
  fetch : FetchResult
  now_ts : ℤ
  rsi : ℚ
  bbl : ℚ
  bbu : ℚ
deriving Repr, DecidableEq

/-- Run the decision loop over a list of per-iteration inputs. -/
def runCycles (st : CycleState) (inputs : List CycleInput) : CycleState :=
  inputs.foldl (fun s i => cycleStep s i.fetch i.now_ts i.rsi i.bbl i.bbu) st

/-- The snapshot as initialized in `main` (lines 559-563). -/
def initialDashboard : DashboardData :=
  { price := 0, rsi := 0, bb_lower := 0, bb_upper := 0, status := "Starting...",
    entry_price := 0, unrealized_pl := 0, realized_pl := 0,
    wallet_usdt := 0, wallet_btc := 0, logs := [] }

/-- The loop's state after startup: `BotState::Idle`, the zeroed snapshot,
the freshly initialized (emptied) database, and the zero current candle
(line 327). -/
def initialCycleState : CycleState :=
  { bot_state := BotState.Idle, data := initialDashboard,
    db := DbManager.init { candles := [], trades := [] },
    current_candle := { open_ := 0, high := 0, low := 0, close := 0, time := 0 } }

/-- A fetch outcome carries a positive price when it succeeds (market
trade prices are positive). -/
def fetchPos (r : FetchResult) : Prop :=
  match r with
  | FetchResult.ok price => 0 < price
  | FetchResult.noData => True
  | FetchResult.err _ => True

instance (r : FetchResult) : Decidable (fetchPos r) :=
  match r with
  | FetchResult.ok price => inferInstanceAs (Decidable (0 < price))
  | FetchResult.noData => Decidable.isTrue trivial
  | FetchResult.err _ => Decidable.isTrue trivial

/-- An order submitted to the exchange by the shutdown handler. -/
structure Order where
  side : String
  price : ℚ
  quantity : ℚ
deriving Repr, DecidableEq

/-- The Ctrl-C shutdown handler of `main` (lines 565-579): read the
snapshot; if `entry_price > 0.0` issue one sell at the snapshot price with
the hardcoded quantity `0.001`, otherwise issue nothing. -/
def shutdown_handler (snap : DashboardData) : Option Order :=
  if 0 < snap.entry_price then
    some { side := "sell", price := snap.price, quantity := 1 / 1000 }
  else
    none

/-- The decision-cycle state used by several concrete evaluations below:
holding a position with entry 100, highest 110, quantity 1, over the zeroed
snapshot and an empty store. -/
def stExit : CycleState :=
  { bot_state := BotState.InPosition 100 110 1, data := initialDashboard,
    db := { candles := [], trades := [] },
    current_candle := { open_ := 0, high := 0, low := 0, close := 0, time := 0 } }

/-- The rows the decision step appends to the trade ledger in simulation
mode: one profit-0 buy row on a buy transition; on an exit, the sell row
written by the decision logic followed by the profit-0 sell row written by
the simulated order execution. -/
def sim_trades_appended (bs : BotState) (price cur_rsi cur_bb_low : ℚ) : List TradeRow :=
  match bs with
  | BotState.Idle =>
      if (cur_rsi < RSI_BUY ∧ price < cur_bb_low) ∨ cur_rsi < 20 then
        [{ action := "buy", price := price, quantity := TRADE_CAPITAL / price, profit := 0 }]
      else []
  | BotState.InPosition entry_price highest_price quantity =>
      let highest_price := if price > highest_price then price else highest_price
      if price < highest_price * (1 - TRAILING_STOP_PCT) ∨ cur_rsi > RSI_SELL then
        [{ action := "sell", price := price, quantity := quantity,
           profit := (price - entry_price) * quantity },
         { action := "sell", price := price, quantity := quantity, profit := 0 }]
      else []

/-- The entry-price marker invariant: the snapshot publishes a strictly
positive entry price exactly when the state machine holds a position. -/
def entryInv (st : CycleState) : Prop :=
  0 < st.data.entry_price ↔ ∃ e h q, st.bot_state = BotState.InPosition e h q

/-- Claim C1: in a cycle that starts Idle with a successfully fetched price,
a buy transition occurs iff the oscillator is below 20, or the oscillator is
below the buy threshold 30 and the price is strictly below the lower band;
on the transition the quantity is 10000 / price and both the entry price and
the highest price seen are set to the current price. -/
theorem buy_transition_iff (data : DashboardData) (db : Db) (cc : Candle)
    (price cur_rsi cur_bb_low cur_bb_high : ℚ) (now_ts : ℤ) :
    (cycleStep ⟨BotState.Idle, data, db, cc⟩ (FetchResult.ok price) now_ts
        cur_rsi cur_bb_low cur_bb_high).bot_state =
      if cur_rsi < 20 ∨ (cur_rsi < RSI_BUY ∧ price < cur_bb_low)
      then BotState.InPosition price price (TRADE_CAPITAL / price)
      else BotState.Idle := by
  simp only [cycleStep, cycleSuccess, bot_decide]
  by_cases h : (cur_rsi < RSI_BUY ∧ price < cur_bb_low) ∨ cur_rsi < 20
  · rw [if_pos h, if_pos (Or.comm.mp h)]
  · rw [if_neg h, if_neg (fun h2 => h (Or.comm.mp h2))]

/-- Claim C2: with trailing_pct = 0.005, from InPosition with entry 100 and
highest 110 the stop price is 109.45; a cycle at price 109.4 exits by the
trailing stop, while a cycle at price 109.46 with the oscillator not above
70 stays in position unchanged. -/
theorem trailing_stop_boundary (data : DashboardData) (db : Db) (cc : Candle)
    (qty cur_rsi cur_bb_low cur_bb_high : ℚ) (now_ts : ℤ) (h : cur_rsi ≤ RSI_SELL) :
    (110 : ℚ) * (1 - TRAILING_STOP_PCT) = 10945 / 100
  ∧ (cycleStep ⟨BotState.InPosition 100 110 qty, data, db, cc⟩ (FetchResult.ok (547/5)) now_ts
        cur_rsi cur_bb_low cur_bb_high).bot_state = BotState.Idle
  ∧ (cycleStep ⟨BotState.InPosition 100 110 qty, data, db, cc⟩ (FetchResult.ok (5473/50)) now_ts
        cur_rsi cur_bb_low cur_bb_high).bot_state = BotState.InPosition 100 110 qty := by
  have h70 : ¬ (70 : ℚ) < cur_rsi := not_lt.mpr (by simpa [RSI_SELL] using h)
  refine ⟨by norm_num [TRAILING_STOP_PCT], ?_, ?_⟩
  · simp only [cycleStep, cycleSuccess, bot_decide]
    norm_num [TRAILING_STOP_PCT]
  · simp only [cycleStep, cycleSuccess, bot_decide]
    norm_num [TRAILING_STOP_PCT, RSI_SELL, h70]

/-- Claim C5: while a position is held across one successful cycle, the
entry price and quantity are unchanged and the highest price seen becomes
the maximum of its previous value and the current price, hence it is
non-decreasing; on a new entry from Idle it starts equal to the entry
price. -/
theorem highest_price_step :
    (∀ (st : CycleState) (price : ℚ) (now_ts : ℤ) (cur_rsi cur_bb_low cur_bb_high e h q e' h' q' : ℚ),
        st.bot_state = BotState.InPosition e h q →
        (cycleStep st (FetchResult.ok price) now_ts cur_rsi cur_bb_low cur_bb_high).bot_state
          = BotState.InPosition e' h' q' →
        e' = e ∧ q' = q ∧ h' = max h price ∧ h ≤ h')
  ∧ (∀ (st : CycleState) (price : ℚ) (now_ts : ℤ) (cur_rsi cur_bb_low cur_bb_high e' h' q' : ℚ),
        st.bot_state = BotState.Idle →
        (cycleStep st (FetchResult.ok price) now_ts cur_rsi cur_bb_low cur_bb_high).bot_state
          = BotState.InPosition e' h' q' →
        h' = e' ∧ e' = price) := by
  constructor
  · intro st price now_ts cur_rsi cur_bb_low cur_bb_high e h q e' h' q' hin hres
    simp only [cycleStep, cycleSuccess, bot_decide, hin] at hres
    split_ifs at hres with h1 h2 h3 h4 h5
    · obtain ⟨he, hh, hq⟩ : e = e' ∧ price = h' ∧ q = q' := by simpa using hres
      exact ⟨he.symm, hq.symm, by rw [← hh]; exact (max_eq_right (le_of_lt h1)).symm,
             by rw [← hh]; exact le_of_lt h1⟩
    · obtain ⟨he, hh, hq⟩ : e = e' ∧ h = h' ∧ q = q' := by simpa using hres
      exact ⟨he.symm, hq.symm, by rw [← hh]; exact (max_eq_left (not_lt.mp h1)).symm,
             by rw [← hh]⟩
  · intro st price now_ts cur_rsi cur_bb_low cur_bb_high e' h' q' hidle hres
    simp only [cycleStep, cycleSuccess, bot_decide, hidle] at hres
    split_ifs at hres with h1
    obtain ⟨he, hh, hq⟩ : price = e' ∧ price = h' ∧ TRADE_CAPITAL / price = q' := by
      simpa using hres
    exact ⟨hh.symm.trans he, he.symm⟩

/-- Claim C8 (amended): the snapshot published by a cycle carries the
unrealized P&L of the state at the start of the cycle, namely
(price - entry) / entry * 100 when the cycle starts InPosition - including
the cycle in which the position exits - and 0 when the cycle starts
Idle. -/
theorem unrealized_pl_published :
    (∀ (st : CycleState) (price : ℚ) (now_ts : ℤ) (cur_rsi cur_bb_low cur_bb_high e h q : ℚ),
        st.bot_state = BotState.InPosition e h q →
        (cycleStep st (FetchResult.ok price) now_ts cur_rsi cur_bb_low cur_bb_high).data.unrealized_pl
          = (price - e) / e * 100)
  ∧ (∀ (st : CycleState) (price : ℚ) (now_ts : ℤ) (cur_rsi cur_bb_low cur_bb_high : ℚ),
        st.bot_state = BotState.Idle →
        (cycleStep st (FetchResult.ok price) now_ts cur_rsi cur_bb_low cur_bb_high).data.unrealized_pl
          = 0) := by
  constructor
  · intro st price now_ts cur_rsi cur_bb_low cur_bb_high e h q hin
    simp only [cycleStep, cycleSuccess, bot_decide, snapshotUpdate, add_log, hin]
    split_ifs <;> rfl
  · intro st price now_ts cur_rsi cur_bb_low cur_bb_high hidle
    simp only [cycleStep, cycleSuccess, bot_decide, snapshotUpdate, add_log, hidle]
    split_ifs <;> rfl

/-- Claim C7 (amended): a failed price fetch (empty trade-history response
or transport error) leaves the whole cycle state - the current candle, the
stored history, the position state and every snapshot field - unchanged;
the error is only printed to standard error, it is not appended to the
snapshot log ring. -/
theorem failed_fetch_skips_cycle (st : CycleState) (now_ts : ℤ)
    (cur_rsi cur_bb_low cur_bb_high : ℚ) (msg : String) :
    cycleStep st FetchResult.noData now_ts cur_rsi cur_bb_low cur_bb_high = st
  ∧ cycleStep st (FetchResult.err msg) now_ts cur_rsi cur_bb_low cur_bb_high = st :=
  ⟨rfl, rfl⟩

/-- Counterexample to claim C7 as stated: after a failed-fetch iteration
the snapshot log ring is unchanged; no error message was appended to it. -/
theorem failed_fetch_not_logged_cex :
    (cycleStep initialCycleState (FetchResult.err ("Tick Error")) 0 0 0 0).data.logs
      = ([] : List String)
  ∧ ¬ ∃ m : String, (cycleStep initialCycleState (FetchResult.err ("Tick Error")) 0 0 0 0).data.logs
      = m :: initialCycleState.data.logs := by
  refine ⟨rfl, ?_⟩
  rintro ⟨m, hm⟩
  simp [cycleStep, initialCycleState, initialDashboard, DbManager.init] at hm


/-- Counterexample to claim C8 as stated: on the cycle in which the
position exits (entry 100, stop exit at price 109.4) the published
unrealized P&L is 9.4, not 0, although the state after the cycle is
Idle. -/
theorem unrealized_pl_exit_cycle_cex :
    (cycleStep stExit (FetchResult.ok (547/5)) 0 50 0 0).bot_state = BotState.Idle
  ∧ (cycleStep stExit (FetchResult.ok (547/5)) 0 50 0 0).data.unrealized_pl = 47 / 5
  ∧ (47 / 5 : ℚ) ≠ 0 := by
  refine ⟨?_, ?_, by norm_num⟩
  · simp only [cycleStep, cycleSuccess, bot_decide, stExit]
    norm_num [TRAILING_STOP_PCT, RSI_SELL]
  · simp only [cycleStep, cycleSuccess, bot_decide, snapshotUpdate, add_log, stExit,
               initialDashboard]
    norm_num [TRAILING_STOP_PCT, RSI_SELL]


/-- Claim C3 (amended): the decision step only ever appends to the trade
ledger, pruning leaves it unchanged, and real-mode order execution writes
nothing; but in simulation mode a Buy decision appends exactly one row
(profit 0) while a Sell decision appends two rows (the decision row with
the realized profit plus a profit-0 row from the simulated execution), and
startup initialization drops every existing trade row. -/
theorem trade_ledger_effect :
    (∀ (bs : BotState) (data : DashboardData) (db : Db) (price cur_rsi cur_bb_low : ℚ),
        (bot_decide true bs data db price cur_rsi cur_bb_low).2.2.trades
          = db.trades ++ sim_trades_appended bs price cur_rsi cur_bb_low)
  ∧ (∀ (db : Db) (side : String) (price qty : ℚ), execute_trade false db side price qty = db)
  ∧ (∀ (db : Db) (now_ms : ℤ), (DbManager.prune_old_data db now_ms).trades = db.trades)
  ∧ (∀ db : Db, (DbManager.init db).trades = []) := by
  refine ⟨?_, fun db side price qty => rfl, fun db now_ms => rfl, fun db => rfl⟩
  intro bs data db price cur_rsi cur_bb_low
  cases bs with
  | Idle =>
    simp only [bot_decide, sim_trades_appended, execute_trade, DbManager.log_trade]
    split_ifs <;> simp
  | InPosition e h q =>
    simp only [bot_decide, sim_trades_appended, execute_trade, DbManager.log_trade]
    split_ifs <;> first | tauto | simp

/-- Counterexample to claim C3 as stated: in simulation mode one executed
Sell decision appends two ledger rows rather than exactly one, and startup
initialization deletes a previously present trade row. -/
theorem trade_ledger_cex :
    ((bot_decide true (BotState.InPosition 100 110 1) initialDashboard
        ⟨[], []⟩ (547/5) 50 0).2.2).trades.length = 2
  ∧ (DbManager.init ⟨[], [⟨"buy", 100, 1, 0⟩]⟩).trades.length = 0 := by
  constructor
  · simp only [bot_decide, execute_trade, DbManager.log_trade]
    norm_num [TRAILING_STOP_PCT, RSI_SELL]
  · rfl

/-- Claim C9: pruning deletes exactly the candle rows whose time is
strictly less than now - 3600000 ms, retains every other candle row, and
leaves the trade ledger unchanged. -/
theorem prune_candles_semantics (db : Db) (now_ms : ℤ) :
    (DbManager.prune_old_data db now_ms).candles
      = db.candles.filter (fun c => !decide (c.time < now_ms - 3600000))
  ∧ (∀ c : CandleRow, c ∈ (DbManager.prune_old_data db now_ms).candles
      ↔ c ∈ db.candles ∧ ¬ c.time < now_ms - 3600000)
  ∧ (DbManager.prune_old_data db now_ms).trades = db.trades := by
  refine ⟨?_, ?_, rfl⟩
  · norm_num [DbManager.prune_old_data]
  · intro c
    simp [DbManager.prune_old_data, List.mem_filter]


/-- One loop iteration with a positive fetched price preserves the
entry-price marker invariant. -/
theorem entryInv_step (st : CycleState) (i : CycleInput) (hpos : fetchPos i.fetch)
    (hinv : entryInv st) :
    entryInv (cycleStep st i.fetch i.now_ts i.rsi i.bbl i.bbu) := by
  rcases hf : i.fetch with price | _ | m
  · rw [hf] at hpos
    have hp : (0 : ℚ) < price := hpos
    rcases hbs : st.bot_state with _ | ⟨e0, h0, q0⟩
    · unfold entryInv at hinv ⊢
      rw [hbs] at hinv
      simp only [cycleStep, cycleSuccess, bot_decide, snapshotUpdate, hbs]
      split_ifs with h1
      · simp [hp]
      · simpa using hinv
    · unfold entryInv at hinv ⊢
      rw [hbs] at hinv
      have hent : 0 < st.data.entry_price := hinv.mpr ⟨e0, h0, q0, rfl⟩
      simp only [cycleStep, cycleSuccess, bot_decide, snapshotUpdate, hbs]
      split_ifs with h1 h2 h3
      all_goals simp_all
  · simpa [cycleStep] using hinv
  · simpa [cycleStep] using hinv

/-- Running any number of positive-price iterations preserves the
entry-price marker invariant. -/
theorem entryInv_run (inputs : List CycleInput) :
    ∀ st : CycleState, (∀ i ∈ inputs, fetchPos i.fetch) → entryInv st →
      entryInv (runCycles st inputs) := by
  induction inputs with
  | nil => intro st _ hinv; simpa [runCycles] using hinv
  | cons a l ih =>
    intro st hpos hinv
    have h1 := entryInv_step st a (hpos a (by simp)) hinv
    have h2 := ih (cycleStep st a.fetch a.now_ts a.rsi a.bbl a.bbu)
      (fun i hi => hpos i (by simp [hi])) h1
    simpa [runCycles, List.foldl] using h2

/-- The startup state satisfies the entry-price marker invariant. -/
theorem entryInv_initial : entryInv initialCycleState := by
  unfold entryInv initialCycleState initialDashboard
  simp

/-- Claim C4: from the initial state, over any input sequence whose fetched
prices are positive, the published entry_price is strictly positive iff the
state machine is InPosition; and the state is always exactly one of Idle or
InPosition. -/
theorem position_state_entry_iff (inputs : List CycleInput)
    (hpos : ∀ i ∈ inputs, fetchPos i.fetch) :
    (0 < (runCycles initialCycleState inputs).data.entry_price
       ↔ ∃ e h q, (runCycles initialCycleState inputs).bot_state = BotState.InPosition e h q)
  ∧ ∀ bs : BotState, bs = BotState.Idle ∨ ∃ e h q, bs = BotState.InPosition e h q := by
  refine ⟨entryInv_run inputs initialCycleState hpos entryInv_initial, ?_⟩
  intro bs
  cases bs with
  | Idle => exact Or.inl rfl
  | InPosition e h q => exact Or.inr ⟨e, h, q, rfl⟩

/-- Claim C10 (amended): over any positive-price run from the initial
state, the shutdown handler issues exactly one best-effort sell at the
snapshot price with the hardcoded quantity 0.001 when a position is open,
and no order when the state is Idle. -/
theorem shutdown_liquidation (inputs : List CycleInput)
    (hpos : ∀ i ∈ inputs, fetchPos i.fetch) :
    ((∃ e h q, (runCycles initialCycleState inputs).bot_state = BotState.InPosition e h q) →
       shutdown_handler (runCycles initialCycleState inputs).data
         = some { side := "sell", price := (runCycles initialCycleState inputs).data.price,
                  quantity := 1 / 1000 })
  ∧ ((runCycles initialCycleState inputs).bot_state = BotState.Idle →
       shutdown_handler (runCycles initialCycleState inputs).data = none) := by
  have hinv := entryInv_run inputs initialCycleState hpos entryInv_initial
  constructor
  · intro hex
    unfold shutdown_handler
    rw [if_pos (hinv.mpr hex)]
  · intro hidle
    unfold shutdown_handler
    rw [if_neg]
    intro hlt
    obtain ⟨e, h, q, heq⟩ := hinv.mp hlt
    rw [hidle] at heq
    exact BotState.noConfusion heq

/-- Witness for claim C4: one positive-price cycle that buys at 100. -/
theorem position_state_entry_iff_witness :
    0 < (runCycles initialCycleState [⟨FetchResult.ok 100, 0, 10, 0, 0⟩]).data.entry_price
  ∧ ∃ e h q, (runCycles initialCycleState [⟨FetchResult.ok 100, 0, 10, 0, 0⟩]).bot_state
      = BotState.InPosition e h q := by
  have hmain := position_state_entry_iff [⟨FetchResult.ok 100, 0, 10, 0, 0⟩]
    (by norm_num [fetchPos])
  have hent : 0 < (runCycles initialCycleState
      [⟨FetchResult.ok 100, 0, 10, 0, 0⟩]).data.entry_price := by
    simp only [runCycles, List.foldl, cycleStep, cycleSuccess, bot_decide, snapshotUpdate,
               add_log, initialCycleState, initialDashboard]
    norm_num [RSI_BUY]
  exact ⟨hent, hmain.1.mp hent⟩

/-- Witness for claim C10: after a buy cycle at price 100 the handler
issues the 0.001-quantity sell. -/
theorem shutdown_liquidation_witness :
    shutdown_handler (runCycles initialCycleState [⟨FetchResult.ok 100, 0, 10, 0, 0⟩]).data
      = some { side := "sell",
               price := (runCycles initialCycleState
                 [⟨FetchResult.ok 100, 0, 10, 0, 0⟩]).data.price,
               quantity := 1 / 1000 } := by
  refine (shutdown_liquidation [⟨FetchResult.ok 100, 0, 10, 0, 0⟩]
    (by norm_num [fetchPos])).1 ⟨100, 100, 100, ?_⟩
  simp only [runCycles, List.foldl, cycleStep, cycleSuccess, bot_decide, snapshotUpdate,
             add_log, initialCycleState, initialDashboard]
  norm_num [RSI_BUY, TRADE_CAPITAL]

/-- Counterexample to claim C10 as stated: after a buy of quantity 100 the
shutdown handler sells the fixed quantity 0.001, not the full position
quantity. -/
theorem shutdown_quantity_cex :
    (runCycles initialCycleState [⟨FetchResult.ok 100, 0, 10, 0, 0⟩]).bot_state
      = BotState.InPosition 100 100 100
  ∧ shutdown_handler (runCycles initialCycleState [⟨FetchResult.ok 100, 0, 10, 0, 0⟩]).data
      = some { side := "sell", price := 100, quantity := 1 / 1000 }
  ∧ (1 / 1000 : ℚ) ≠ 100 := by
  refine ⟨?_, ?_, by norm_num⟩
  · simp only [runCycles, List.foldl, cycleStep, cycleSuccess, bot_decide, snapshotUpdate,
               add_log, initialCycleState, initialDashboard]
    norm_num [RSI_BUY, TRADE_CAPITAL]
  · simp only [runCycles, List.foldl, cycleStep, cycleSuccess, bot_decide, snapshotUpdate,
               add_log, initialCycleState, initialDashboard, shutdown_handler]
    norm_num [RSI_BUY, TRADE_CAPITAL]

/-- A left fold of max bounds its seed and every list element from above. -/
theorem foldl_max_spec (l : List ℚ) :
    ∀ a : ℚ, a ≤ l.foldl max a ∧ ∀ x ∈ l, x ≤ l.foldl max a := by
  induction l with
  | nil => intro a; simp
  | cons b t ih =>
    intro a
    refine ⟨le_trans (le_max_left a b) (ih (max a b)).1, ?_⟩
    intro x hx
    rcases List.mem_cons.mp hx with rfl | hx
    · exact le_trans (le_max_right a x) (ih (max a x)).1
    · exact (ih (max a b)).2 x hx

/-- A left fold of min bounds its seed and every list element from below. -/
theorem foldl_min_spec (l : List ℚ) :
    ∀ a : ℚ, l.foldl min a ≤ a ∧ ∀ x ∈ l, l.foldl min a ≤ x := by
  induction l with
  | nil => intro a; simp
  | cons b t ih =>
    intro a
    refine ⟨le_trans (ih (min a b)).1 (min_le_left a b), ?_⟩
    intro x hx
    rcases List.mem_cons.mp hx with rfl | hx
    · exact le_trans (ih (min a x)).1 (min_le_right a x)
    · exact (ih (min a b)).2 x hx

/-- Within the same bucket, one aggregator tick sets close to the price and
widens high and low to the running maximum and minimum. -/
theorem observe_same_bucket (c : Candle) (price : ℚ) (now_ts : ℤ)
    (hb : bucketOf now_ts = c.time) :
    observe c price now_ts
      = { open_ := c.open_, high := max c.high price, low := min c.low price,
          close := price, time := c.time } := by
  simp only [observe, hb]
  split_ifs with h0 h1 h2 h2 <;> simp_all [Candle.mk.injEq, le_of_lt]

/-- Folding aggregator ticks that stay in one bucket preserves the open and
tracks close, high and low of the observed prices. -/
theorem observeFold_same_bucket (b : ℤ) (ticks : List (ℚ × ℤ)) :
    ∀ c : Candle, c.time = b → (∀ pt ∈ ticks, bucketOf pt.2 = b) →
      (observeFold c ticks).time = b
    ∧ (observeFold c ticks).open_ = c.open_
    ∧ (observeFold c ticks).close = (ticks.map Prod.fst).getLastD c.close
    ∧ (observeFold c ticks).high = (ticks.map Prod.fst).foldl max c.high
    ∧ (observeFold c ticks).low = (ticks.map Prod.fst).foldl min c.low := by
  induction ticks with
  | nil => intro c hc _; simp [observeFold, hc]
  | cons a l ih =>
    intro c hc hall
    have ha : bucketOf a.2 = c.time := by rw [hc]; exact hall a (List.mem_cons_self a l)
    have hobs := observe_same_bucket c a.1 a.2 ha
    have hstep : observeFold c (a :: l) = observeFold (observe c a.1 a.2) l := rfl
    have hc' : (observe c a.1 a.2).time = b := by rw [hobs]; exact hc
    obtain ⟨ht, ho, hcl, hhi, hlo⟩ := ih (observe c a.1 a.2) hc'
      (fun pt hpt => hall pt (List.mem_cons_of_mem a hpt))
    rw [hstep]
    refine ⟨ht, ?_, ?_, ?_, ?_⟩
    · rw [ho, hobs]
    · rw [hcl, hobs]
      simp only [List.map_cons, List.getLastD_cons]
      try rfl
    · rw [hhi, hobs]
      simp [List.foldl_cons]
    · rw [hlo, hobs]
      simp [List.foldl_cons]

/-- Claim C6: the first tick of a new bucket starts a candle with
open = high = low = close = price; folding further ticks of the same bucket
keeps open as the first price, close as the last observed price, high as
the maximum and low as the minimum of the observed prices (hence low and
high bound every observed price). -/
theorem candle_aggregation (current : Candle) (p0 : ℚ) (t0 : ℤ) (rest : List (ℚ × ℤ))
    (hnew : current.time ≠ bucketOf t0)
    (hsame : ∀ pt ∈ rest, bucketOf pt.2 = bucketOf t0) :
    observe current p0 t0
      = { open_ := p0, high := p0, low := p0, close := p0, time := bucketOf t0 }
  ∧ (observeFold (observe current p0 t0) rest).open_ = p0
  ∧ (observeFold (observe current p0 t0) rest).close = (rest.map Prod.fst).getLastD p0
  ∧ (observeFold (observe current p0 t0) rest).high = (rest.map Prod.fst).foldl max p0
  ∧ (observeFold (observe current p0 t0) rest).low = (rest.map Prod.fst).foldl min p0
  ∧ ∀ x ∈ p0 :: rest.map Prod.fst,
      (observeFold (observe current p0 t0) rest).low ≤ x
    ∧ x ≤ (observeFold (observe current p0 t0) rest).high := by
  have hfresh : observe current p0 t0
      = { open_ := p0, high := p0, low := p0, close := p0, time := bucketOf t0 } := by
    simp [observe, hnew]
  obtain ⟨ht, ho, hcl, hhi, hlo⟩ := observeFold_same_bucket (bucketOf t0) rest
    (observe current p0 t0) (by rw [hfresh]) hsame
  refine ⟨hfresh, ?_, ?_, ?_, ?_, ?_⟩
  · rw [ho, hfresh]
  · rw [hcl, hfresh]
  · rw [hhi, hfresh]
  · rw [hlo, hfresh]
  · intro x hx
    rcases List.mem_cons.mp hx with rfl | hx
    · refine ⟨?_, ?_⟩
      · rw [hlo, hfresh]; exact (foldl_min_spec _ _).1
      · rw [hhi, hfresh]; exact (foldl_max_spec _ _).1
    · refine ⟨?_, ?_⟩
      · rw [hlo, hfresh]; exact (foldl_min_spec _ _).2 x hx
      · rw [hhi, hfresh]; exact (foldl_max_spec _ _).2 x hx

/-- Witness for claim C2 at concrete inputs (quantity 1, oscillator 50). -/
theorem trailing_stop_boundary_witness :
    (50 : ℚ) ≤ RSI_SELL
  ∧ ((110 : ℚ) * (1 - TRAILING_STOP_PCT) = 10945 / 100
  ∧ (cycleStep ⟨BotState.InPosition 100 110 1, initialDashboard, ⟨[], []⟩, ⟨0, 0, 0, 0, 0⟩⟩
        (FetchResult.ok (547/5)) 0 50 0 0).bot_state = BotState.Idle
  ∧ (cycleStep ⟨BotState.InPosition 100 110 1, initialDashboard, ⟨[], []⟩, ⟨0, 0, 0, 0, 0⟩⟩
        (FetchResult.ok (5473/50)) 0 50 0 0).bot_state = BotState.InPosition 100 110 1) :=
  ⟨by norm_num [RSI_SELL],
   trailing_stop_boundary initialDashboard ⟨[], []⟩ ⟨0, 0, 0, 0, 0⟩ 1 50 0 0 0
     (by norm_num [RSI_SELL])⟩

/-- Witness for claim C5: a holding cycle at price 109.46 from entry 100,
highest 110. -/
theorem highest_price_step_witness :
    (100 : ℚ) = 100 ∧ (1 : ℚ) = 1 ∧ (110 : ℚ) = max 110 (5473/50) ∧ (110 : ℚ) ≤ 110 :=
  highest_price_step.1 stExit (5473/50) 0 50 0 0 100 110 1 100 110 1 rfl (by
    simp only [cycleStep, cycleSuccess, bot_decide, stExit]
    norm_num [TRAILING_STOP_PCT, RSI_SELL])

/-- Witness for claim C8: an in-position cycle at price 105 from entry 100,
and an idle cycle. -/
theorem unrealized_pl_published_witness :
    (cycleStep stExit (FetchResult.ok 105) 0 50 0 0).data.unrealized_pl = (105 - 100) / 100 * 100
  ∧ (cycleStep initialCycleState (FetchResult.ok 105) 0 50 0 0).data.unrealized_pl = 0 :=
  ⟨unrealized_pl_published.1 stExit 105 0 50 0 0 100 110 1 rfl,
   unrealized_pl_published.2 initialCycleState 105 0 50 0 0 rfl⟩

/-- Witness for claim C6: ticks 4, 5, 3 inside the bucket starting at
60000 ms. -/
theorem candle_aggregation_witness :
    ((⟨0, 0, 0, 0, 0⟩ : Candle).time ≠ bucketOf 60000)
  ∧ (observeFold (observe ⟨0, 0, 0, 0, 0⟩ 4 60000) [(5, 60001), (3, 60002)]).high
      = (([(5, 60001), (3, 60002)] : List (ℚ × ℤ)).map Prod.fst).foldl max 4 := by
  refine ⟨by decide, ?_⟩
  exact (candle_aggregation ⟨0, 0, 0, 0, 0⟩ 4 60000 [(5, 60001), (3, 60002)]
    (by decide) (by decide)).2.2.2.1
